import Mathlib

/-!
Verification development for the Puch-AI-Hackathon tool servers
(`dsaQuestion.py`, `final.py`, `starter.py`).

The daily-problem / points / reward logic is identical between
`dsaQuestion.py` and `final.py`; the stream-finder logic is identical
between `starter.py` and `final.py`.  We embed the shared logic once.

Python dicts (`user_last_request`, `user_points`, `user_current_problem`)
are modelled as association lists with Python's update-in-place /
append-new-key ordering.  Timestamps (`time.time()` floats compared with
integer constants) are modelled as `Int`; all comparisons the code
performs (`now - last < 86400`, `points < 50`) are order comparisons that
behave identically on an ordered subring, so nothing about the claims
depends on fractional values.  The outcome of an `await`ed upstream HTTP
call is passed in as an explicit parameter (the tool performs at most one
fetch per call; the `didFetch` flag records whether the fetch path ran).
-/

/-- Lookup in a Python-dict model: first binding of the key, if any. -/
def dictGet {α : Type} (d : List (String × α)) (k : String) : Option α :=
  match d with
  | [] => none
  | (k₀, v₀) :: rest => if k₀ = k then some v₀ else dictGet rest k

/-- `d.get(k, v₀)` in Python: lookup with a default. -/
def dictGetD {α : Type} (d : List (String × α)) (k : String) (v₀ : α) : α :=
  (dictGet d k).getD v₀

/-- `d[k] = v` in Python: update in place if present, else append. -/
def dictInsert {α : Type} (d : List (String × α)) (k : String) (v : α) :
    List (String × α) :=
  match d with
  | [] => [(k, v)]
  | (k₀, v₀) :: rest =>
      if k₀ = k then (k₀, v) :: rest else (k₀, v₀) :: dictInsert rest k v

/-- `k in d` in Python. -/
def dictContains {α : Type} (d : List (String × α)) (k : String) : Bool :=
  (dictGet d k).isSome

theorem dictGet_insert {α : Type} (d : List (String × α)) (k : String) (v : α)
    (u : String) :
    dictGet (dictInsert d k v) u = if k = u then some v else dictGet d u := by
  induction d with
  | nil => by_cases h : k = u <;> simp [dictInsert, dictGet, h]
  | cons p rest ih =>
      obtain ⟨k₀, v₀⟩ := p
      by_cases h₀ : k₀ = k
      · subst h₀
        by_cases h : k₀ = u <;> simp [dictInsert, dictGet, h]
      · by_cases h : k₀ = u
        · subst h
          have : ¬ k = k₀ := fun hk => h₀ hk.symm
          simp [dictInsert, dictGet, h₀, this]
        · simp [dictInsert, dictGet, h₀, h, ih]

theorem dictGet_insert_self {α : Type} (d : List (String × α)) (k : String)
    (v : α) : dictGet (dictInsert d k v) k = some v := by
  simp [dictGet_insert]

theorem dictGet_insert_ne {α : Type} (d : List (String × α)) (k : String)
    (v : α) (u : String) (h : k ≠ u) :
    dictGet (dictInsert d k v) u = dictGet d u := by
  simp [dictGet_insert, h]

theorem dictGet_of_mem_nodup {α : Type} (l : List (String × α)) (u : String)
    (v : α) (hnd : (l.map Prod.fst).Nodup) (hmem : (u, v) ∈ l) :
    dictGet l u = some v := by
  induction l with
  | nil => cases hmem
  | cons p rest ih =>
      obtain ⟨k₀, v₀⟩ := p
      simp only [List.map_cons, List.nodup_cons] at hnd
      rcases List.mem_cons.mp hmem with h | h
      · cases h
        simp [dictGet]
      · have hk : k₀ ≠ u := by
          intro he
          exact hnd.1 (he ▸ (List.mem_map.mpr ⟨(u, v), h, rfl⟩))
        simp [dictGet, hk, ih hnd.2 h]

/-- The `ProblemRecord` dict built by `get_leetcode_daily_problem`
(fields `title`, `link`, `difficulty`, `date`; `date` comes from
`data.get("date")`, hence optional). -/
structure ProblemRecord where
  title : String
  link : String
  difficulty : String
  date : Option String
deriving DecidableEq

/-- The three module-level dicts of `final.py` / `dsaQuestion.py`. -/
structure ServerState where
  user_last_request : List (String × Int)
  user_points : List (String × Int)
  user_current_problem : List (String × ProblemRecord)
deriving DecidableEq

/-- The empty maps the process starts with. -/
def initState : ServerState := ⟨[], [], []⟩

/-- Result of one `dsa_daily_problem` call: the reply string, the state
after the call, and whether the upstream fetch was invoked. -/
structure ToolOutcome where
  reply : String
  state : ServerState
  didFetch : Bool
deriving DecidableEq

/-- `dsa_daily_problem(user_id)` from `final.py` lines 89-104
(identically `dsaQuestion.py` lines 85-101).  `fetchResult` is the value
`await get_leetcode_daily_problem()` would produce on this call
(`none` models the empty dict `{}`).  The guard
`now - last_time < 86400 and user_id in user_current_problem` is rendered
as a match on the lookup under the cooldown test, which is equivalent
because `user_id in d` holds iff the lookup is `some`. -/
def dsa_daily_problem (user_id : String) (now : Int)
    (fetchResult : Option ProblemRecord) (σ : ServerState) : ToolOutcome :=
  let last_time : Int := dictGetD σ.user_last_request user_id 0
  match (if now - last_time < 86400 then
           dictGet σ.user_current_problem user_id
         else none) with
  | some p =>
      { reply := "Your DSA problem: " ++ p.title ++ " (" ++ p.difficulty
          ++ ")\n" ++ p.link
        state := σ
        didFetch := false }
  | none =>
      match fetchResult with
      | none =>
          { reply := "Couldn\x27t fetch today\x27s problem."
            state := σ
            didFetch := true }
      | some prob =>
          { reply := "Here’s your DSA problem: " ++ prob.title ++ " ("
              ++ prob.difficulty ++ ")\n" ++ prob.link
            state :=
              { σ with
                user_current_problem :=
                  dictInsert σ.user_current_problem user_id prob
                user_last_request :=
                  dictInsert σ.user_last_request user_id now }
            didFetch := true }

/-- Python's `not solution.strip()` test: `strip` removes leading and
trailing whitespace, so the stripped string is empty exactly when every
character of `solution` is whitespace (in particular when `solution` is
empty). -/
def stripIsEmpty (solution : String) : Bool :=
  solution.toList.all Char.isWhitespace

/-- `check_dsa_solution(user_id, solution)` from `final.py` lines 107-114
(identically `dsaQuestion.py` lines 105-112). -/
def check_dsa_solution (user_id : String) (solution : String)
    (σ : ServerState) : String × ServerState :=
  if ¬ (dictContains σ.user_current_problem user_id) then
    ("You have no active daily problem.", σ)
  else if stripIsEmpty solution then
    ("Please provide a valid solution.", σ)
  else
    let newPts := dictGetD σ.user_points user_id 0 + 10
    ("Solution saved! 🎉 You now have " ++ toString newPts ++ " points.",
     { σ with user_points := dictInsert σ.user_points user_id newPts })

/-- `show_points(user_id)` from `final.py` lines 117-118. -/
def show_points (user_id : String) (σ : ServerState) : String × ServerState :=
  ("You have " ++ toString (dictGetD σ.user_points user_id 0) ++ " points.", σ)

/-- `claim_rewards(user_id)` from `final.py` lines 121-125 (identically
`dsaQuestion.py` lines 121-125).  In the deduct branch the key is present
(its value is ≥ 50 > the absent-key default 0), so Python's
`user_points[user_id] -= 50` is the in-place update modelled here. -/
def claim_rewards (user_id : String) (σ : ServerState) : String × ServerState :=
  if dictGetD σ.user_points user_id 0 < 50 then
    ("Need 50 points to claim. You have "
       ++ toString (dictGetD σ.user_points user_id 0) ++ ".", σ)
  else
    ("🎁 Reward claimed!",
     { σ with
       user_points := dictInsert σ.user_points user_id
         (dictGetD σ.user_points user_id 0 - 50) })

/-- The body of the `for user_id, last_time in list(user_last_request.items())`
loop in `auto_push_daily_problems` (`final.py` lines 131-137), for one
snapshot entry.  `fetch` gives the outcome of the `await
get_leetcode_daily_problem()` call made for that user. -/
def sweepStep (now : Int) (fetch : String → Option ProblemRecord)
    (σ : ServerState) (entry : String × Int) : ServerState :=
  if 86400 ≤ now - entry.2 then
    match fetch entry.1 with
    | some prob =>
        { σ with
          user_current_problem :=
            dictInsert σ.user_current_problem entry.1 prob
          user_last_request :=
            dictInsert σ.user_last_request entry.1 now }
    | none => σ
  else σ

/-- One pass of the `while True` loop of `auto_push_daily_problems`
(`final.py` lines 128-138): iterate over a snapshot of
`user_last_request.items()` taken at the start of the pass. -/
def auto_push_daily_problems (now : Int)
    (fetch : String → Option ProblemRecord) (σ : ServerState) : ServerState :=
  σ.user_last_request.foldl (sweepStep now fetch) σ

/-- The `question` object of the LeetCode GraphQL payload as the code
accesses it: after `data.get("question")` tests truthy, the code indexes
`q["title"]`, then `q["titleSlug"]` (inside the link f-string), then
`q["difficulty"]`, raising `KeyError` at the first absent key.  The
fields are therefore optional here: a truthy question dict may carry any
subset of them (truthiness only requires it to be non-empty, so it may
hold unrelated keys instead). -/
structure LCQuestion where
  title : Option String
  titleSlug : Option String
  difficulty : Option String
deriving DecidableEq

/-- The `activeDailyCodingChallengeQuestion` object: the code reads
`data.get("date")` and `data.get("question")`; `question := none` models
an absent or falsy value (`null` or an empty dict), `some q` a truthy
dict. -/
structure DailyData where
  date : Option String
  question : Option LCQuestion
deriving DecidableEq

/-- The possible outcomes of the HTTP exchange inside
`get_leetcode_daily_problem`:
* `networkError`: `client.post` raised an `httpx` transport error;
* `malformedBody`: the body is not JSON, so `resp.json()` raised;
* `parsedNonDict`: the body decodes as JSON but some receiver along the
  access chain (the top level, the `"data"` value, the
  `"activeDailyCodingChallengeQuestion"` value, or a truthy non-dict
  `question`) is not a dict, so `.get(...)` / indexing raises
  (`AttributeError` or `TypeError`);
* `parsed d`: the dict-shaped chain of lookups succeeds; `parsed none`
  is the case where
  `.get("data", \x7b\x7d).get("activeDailyCodingChallengeQuestion", \x7b\x7d)`
  comes out absent or falsy. -/
inductive UpstreamOutcome where
  | networkError : UpstreamOutcome
  | malformedBody : UpstreamOutcome
  | parsedNonDict : UpstreamOutcome
  | parsed : Option DailyData → UpstreamOutcome

/-- Python exceptions that escape `get_leetcode_daily_problem`: the
function body has no `try`/`except`, so `client.post` transport errors,
`resp.json()` decode errors, `AttributeError`/`TypeError` from a
non-dict receiver, and `KeyError` from `q[...]` on a truthy question
dict missing a required key all propagate to the caller. -/
inductive PyError where
  | httpxError : PyError
  | jsonDecodeError : PyError
  | attributeError : PyError
  | keyError : PyError
deriving DecidableEq

/-- `get_leetcode_daily_problem()` from `final.py` lines 53-81
(identically `dsaQuestion.py` lines 37-65), as a function of the upstream
outcome.  `Except.error` models an exception propagating to the caller,
`Except.ok none` models the `return \x7b\x7d` path.  The three `q[...]`
lookups are checked in the code's evaluation order — `title`, then
`titleSlug`, then `difficulty` — so the first absent key raises. -/
def get_leetcode_daily_problem (o : UpstreamOutcome) :
    Except PyError (Option ProblemRecord) :=
  match o with
  | .networkError => .error .httpxError
  | .malformedBody => .error .jsonDecodeError
  | .parsedNonDict => .error .attributeError
  | .parsed none => .ok none
  | .parsed (some d) =>
      match d.question with
      | none => .ok none
      | some q =>
          match q.title with
          | none => .error .keyError
          | some t =>
              match q.titleSlug with
              | none => .error .keyError
              | some slug =>
                  match q.difficulty with
                  | none => .error .keyError
                  | some diff =>
                      .ok (some
                        { title := t
                          link := "https://leetcode.com/problems/"
                            ++ slug ++ "/"
                          difficulty := diff
                          date := d.date })

/-- One element of the Twitch `/helix/games` response's `data` list (the
code reads only `data[0]["id"]`). -/
structure TwitchGameEntry where
  id : String
deriving DecidableEq

/-- One element of the Twitch `/helix/streams` response's `data` list. -/
structure TwitchStream where
  user_name : String
  title : String
  user_login : String
deriving DecidableEq

/-- One element of the YouTube search response's `items` list (the code
reads `snippet.channelTitle`, `snippet.title`, `id.videoId`). -/
structure YouTubeItem where
  channelTitle : String
  title : String
  videoId : String
deriving DecidableEq

/-- The upstream stream APIs as pure response tables: `twitchGameSearch`
is the `data` list for a `/helix/games?name=game` call, `twitchStreams`
the `data` list for `/helix/streams?game_id=...&first=n`, and
`youtubeSearch` the `items` list for a YouTube live search with
`maxResults=n`. -/
structure StreamEnv where
  twitchGameSearch : String → List TwitchGameEntry
  twitchStreams : String → Nat → List TwitchStream
  youtubeSearch : String → Nat → List YouTubeItem

/-- A `{user_name/channelTitle, title, url}` dict produced by the two
stream helpers. -/
structure StreamResult where
  name : String
  title : String
  url : String
deriving DecidableEq

/-- `get_twitch_live_streams(game)` from `final.py` lines 141-170
(identically `starter.py` lines 51-76): resolve the game name, return
`[]` when unresolved, else map the streams response (requested with
`first = 5`). -/
def get_twitch_live_streams (env : StreamEnv) (game : String) :
    List StreamResult :=
  match env.twitchGameSearch game with
  | [] => []
  | g :: _ =>
      (env.twitchStreams g.id 5).map fun s =>
        { name := s.user_name
          title := s.title
          url := "https://twitch.tv/" ++ s.user_login }

/-- `get_youtube_live_streams(game)` from `final.py` lines 172-188
(identically `starter.py` lines 78-94), requested with `maxResults = 5`. -/
def get_youtube_live_streams (env : StreamEnv) (game : String) :
    List StreamResult :=
  (env.youtubeSearch game 5).map fun item =>
    { name := item.channelTitle
      title := item.title
      url := "https://www.youtube.com/watch?v=" ++ item.videoId }

/-- `"[Platform] name: title (url)"`. -/
def renderStream (platform : String) (s : StreamResult) : String :=
  "[" ++ platform ++ "] " ++ s.name ++ ": " ++ s.title ++ " (" ++ s.url ++ ")"

/-- Python truthiness of the optional `platform` argument:
`not platform` is true for `None` and for the empty string. -/
def platformFalsy : Option String → Bool
  | none => true
  | some s => s = ""

/-- The `results` list built by `stream_finder` (`final.py` lines
196-207, identically `starter.py` lines 115-132): Twitch block first,
then YouTube block, each guarded by
`not platform or platform.lower() == ...`. -/
def stream_finder_results (env : StreamEnv) (game_name : String)
    (platform : Option String) : List String :=
  let results : List String := []
  let results :=
    if platformFalsy platform || (platform.getD "").toLower = "twitch" then
      results ++ (get_twitch_live_streams env game_name).map
        (renderStream "Twitch")
    else results
  if platformFalsy platform || (platform.getD "").toLower = "youtube" then
    results ++ (get_youtube_live_streams env game_name).map
      (renderStream "YouTube")
  else results

/-- `stream_finder`'s return value:
`"\n".join(results) if results else "No live streams found right now."`. -/
def stream_finder (env : StreamEnv) (game_name : String)
    (platform : Option String) : String :=
  let results := stream_finder_results env game_name platform
  if results.isEmpty then "No live streams found right now."
  else String.intercalate "\n" results

/-- One externally triggered step of the tracker: a tool call (with the
upstream fetch outcome it would observe) or one pass of the background
sweep. -/
inductive Op where
  | getDaily : String → Int → Option ProblemRecord → Op
  | submit : String → String → Op
  | showPts : String → Op
  | claimRw : String → Op
  | sweep : Int → (String → Option ProblemRecord) → Op

/-- The state transition of one step (replies discarded). -/
def applyOp (op : Op) (σ : ServerState) : ServerState :=
  match op with
  | .getDaily u now f => (dsa_daily_problem u now f σ).state
  | .submit u sol => (check_dsa_solution u sol σ).2
  | .showPts u => (show_points u σ).2
  | .claimRw u => (claim_rewards u σ).2
  | .sweep now f => auto_push_daily_problems now f σ

/-- Run a sequence of steps from the empty initial state. -/
def runOps (ops : List Op) : ServerState :=
  ops.foldl (fun σ op => applyOp op σ) initState

theorem dsa_user_points_eq (u : String) (now : Int)
    (f : Option ProblemRecord) (σ : ServerState) :
    (dsa_daily_problem u now f σ).state.user_points = σ.user_points := by
  simp only [dsa_daily_problem]
  repeat' split
  all_goals rfl

theorem sweepStep_user_points_eq (now : Int)
    (fetch : String → Option ProblemRecord) (σ : ServerState)
    (entry : String × Int) :
    (sweepStep now fetch σ entry).user_points = σ.user_points := by
  unfold sweepStep
  split
  · cases fetch entry.1 <;> rfl
  · rfl

theorem sweep_foldl_user_points_eq (now : Int)
    (fetch : String → Option ProblemRecord) (l : List (String × Int))
    (σ : ServerState) :
    (l.foldl (sweepStep now fetch) σ).user_points = σ.user_points := by
  induction l generalizing σ with
  | nil => rfl
  | cons hd tl ih =>
      simp only [List.foldl_cons]
      rw [ih, sweepStep_user_points_eq]

theorem sweepStep_lookup_ne (now : Int)
    (fetch : String → Option ProblemRecord) (σ : ServerState)
    (entry : String × Int) (u : String) (h : entry.1 ≠ u) :
    dictGet (sweepStep now fetch σ entry).user_current_problem u
        = dictGet σ.user_current_problem u ∧
      dictGet (sweepStep now fetch σ entry).user_last_request u
        = dictGet σ.user_last_request u := by
  unfold sweepStep
  split
  · cases hf : fetch entry.1 with
    | none => exact ⟨rfl, rfl⟩
    | some prob =>
        exact ⟨dictGet_insert_ne _ _ _ _ h, dictGet_insert_ne _ _ _ _ h⟩
  · exact ⟨rfl, rfl⟩

theorem sweep_foldl_lookup_ne (now : Int)
    (fetch : String → Option ProblemRecord) (l : List (String × Int))
    (u : String) (h : ∀ q ∈ l, q.1 ≠ u) (σ : ServerState) :
    dictGet (l.foldl (sweepStep now fetch) σ).user_current_problem u
        = dictGet σ.user_current_problem u ∧
      dictGet (l.foldl (sweepStep now fetch) σ).user_last_request u
        = dictGet σ.user_last_request u := by
  induction l generalizing σ with
  | nil => exact ⟨rfl, rfl⟩
  | cons hd tl ih =>
      simp only [List.foldl_cons]
      have hhd := sweepStep_lookup_ne now fetch σ hd u
        (h hd (List.mem_cons_self hd tl))
      have htl := ih (fun q hq => h q (List.mem_cons_of_mem hd hq))
        (sweepStep now fetch σ hd)
      exact ⟨htl.1.trans hhd.1, htl.2.trans hhd.2⟩

theorem sweep_foldl_lookup_main (now : Int)
    (fetch : String → Option ProblemRecord) (u : String) (lt : Int)
    (hcool : 86400 ≤ now - lt) (l : List (String × Int)) (σ : ServerState)
    (hmem : (u, lt) ∈ l) (hnd : (l.map Prod.fst).Nodup) :
    (∀ p, fetch u = some p →
        dictGet (l.foldl (sweepStep now fetch) σ).user_current_problem u
            = some p ∧
          dictGet (l.foldl (sweepStep now fetch) σ).user_last_request u
            = some now) ∧
      (fetch u = none →
        dictGet (l.foldl (sweepStep now fetch) σ).user_current_problem u
            = dictGet σ.user_current_problem u ∧
          dictGet (l.foldl (sweepStep now fetch) σ).user_last_request u
            = dictGet σ.user_last_request u) := by
  induction l generalizing σ with
  | nil => cases hmem
  | cons hd tl ih =>
      simp only [List.map_cons, List.nodup_cons] at hnd
      simp only [List.foldl_cons]
      rcases List.mem_cons.mp hmem with hhd | htl
      · subst hhd
        have hne : ∀ q ∈ tl, q.1 ≠ u := by
          intro q hq he
          exact hnd.1 (he ▸ (List.mem_map.mpr ⟨q, hq, rfl⟩))
        have hpres := sweep_foldl_lookup_ne now fetch tl u hne
          (sweepStep now fetch σ (u, lt))
        constructor
        · intro p hfp
          have : sweepStep now fetch σ (u, lt) =
              { σ with
                user_current_problem :=
                  dictInsert σ.user_current_problem u p
                user_last_request :=
                  dictInsert σ.user_last_request u now } := by
            unfold sweepStep
            rw [if_pos hcool]
            simp [hfp]
          rw [this] at hpres ⊢
          refine ⟨hpres.1.trans ?_, hpres.2.trans ?_⟩
          · exact dictGet_insert_self _ _ _
          · exact dictGet_insert_self _ _ _
        · intro hfn
          have : sweepStep now fetch σ (u, lt) = σ := by
            unfold sweepStep
            rw [if_pos hcool]
            simp [hfn]
          rw [this] at hpres ⊢
          exact hpres
      · have hu : u ∈ tl.map Prod.fst := List.mem_map.mpr ⟨(u, lt), htl, rfl⟩
        have hne : hd.1 ≠ u := fun he => hnd.1 (he ▸ hu)
        have hstep := sweepStep_lookup_ne now fetch σ hd u hne
        have := ih (sweepStep now fetch σ hd) htl hnd.2
        refine ⟨this.1, fun hfn => ?_⟩
        have h2 := this.2 hfn
        exact ⟨h2.1.trans hstep.1, h2.2.trans hstep.2⟩

/-- Every stored balance (and the absent-key default) is non-negative. -/
def pointsNonneg (σ : ServerState) : Prop :=
  ∀ u : String, 0 ≤ dictGetD σ.user_points u 0

theorem pointsNonneg_applyOp (op : Op) (σ : ServerState)
    (h : pointsNonneg σ) : pointsNonneg (applyOp op σ) := by
  intro u
  match op with
  | .getDaily v now f =>
      simpa [applyOp, dictGetD, dsa_user_points_eq] using h u
  | .submit v sol =>
      by_cases hc : dictContains σ.user_current_problem v
      · by_cases hs : stripIsEmpty sol
        · simpa [applyOp, check_dsa_solution, hc, hs] using h u
        · by_cases hv : v = u
          · subst hv
            have hp := h v
            simp only [dictGetD] at hp
            simp [applyOp, check_dsa_solution, hc, hs, dictGetD,
              dictGet_insert_self]
            omega
          · have hp := h u
            simp only [dictGetD] at hp
            simp [applyOp, check_dsa_solution, hc, hs, dictGetD,
              dictGet_insert_ne _ _ _ _ hv]
            exact hp
      · simpa [applyOp, check_dsa_solution, hc] using h u
  | .showPts v =>
      simpa [applyOp, show_points] using h u
  | .claimRw v =>
      by_cases hlt : dictGetD σ.user_points v 0 < 50
      · simpa [applyOp, claim_rewards, hlt] using h u
      · have hp := h v
        simp only [dictGetD] at hp hlt
        by_cases hv : v = u
        · subst hv
          simp [applyOp, claim_rewards, dictGetD, hlt, dictGet_insert_self]
          omega
        · have hpu := h u
          simp only [dictGetD] at hpu
          simp [applyOp, claim_rewards, dictGetD, hlt,
            dictGet_insert_ne _ _ _ _ hv]
          exact hpu
  | .sweep now f =>
      simpa [applyOp, auto_push_daily_problems, dictGetD,
        sweep_foldl_user_points_eq] using h u

theorem dsa_fetch_some_eq (u : String) (now : Int) (p : ProblemRecord)
    (σ : ServerState)
    (hm : ¬ (now - dictGetD σ.user_last_request u 0 < 86400 ∧
      dictContains σ.user_current_problem u = true)) :
    dsa_daily_problem u now (some p) σ =
      { reply := "Here’s your DSA problem: " ++ p.title ++ " ("
          ++ p.difficulty ++ ")\n" ++ p.link
        state :=
          { σ with
            user_current_problem := dictInsert σ.user_current_problem u p
            user_last_request := dictInsert σ.user_last_request u now }
        didFetch := true } := by
  simp only [dsa_daily_problem]
  by_cases hc : now - dictGetD σ.user_last_request u 0 < 86400
  · have hnone : dictGet σ.user_current_problem u = none := by
      cases hget : dictGet σ.user_current_problem u with
      | none => rfl
      | some q => exact absurd ⟨hc, by simp [dictContains, hget]⟩ hm
    rw [if_pos hc, hnone]
  · rw [if_neg hc]

theorem dsa_fetch_none_eq (u : String) (now : Int) (σ : ServerState)
    (hm : ¬ (now - dictGetD σ.user_last_request u 0 < 86400 ∧
      dictContains σ.user_current_problem u = true)) :
    dsa_daily_problem u now none σ =
      { reply := "Couldn\x27t fetch today\x27s problem."
        state := σ
        didFetch := true } := by
  simp only [dsa_daily_problem]
  by_cases hc : now - dictGetD σ.user_last_request u 0 < 86400
  · have hnone : dictGet σ.user_current_problem u = none := by
      cases hget : dictGet σ.user_current_problem u with
      | none => rfl
      | some q => exact absurd ⟨hc, by simp [dictContains, hget]⟩ hm
    rw [if_pos hc, hnone]
  · rw [if_neg hc]

/-- A concrete problem record used by witness instances. -/
def recTwoSum : ProblemRecord :=
  { title := "Two Sum"
    link := "https://leetcode.com/problems/two-sum/"
    difficulty := "Easy"
    date := some "2024-01-01" }

/-- A second concrete problem record used by witness instances. -/
def recAddTwo : ProblemRecord :=
  { title := "Add Two Numbers"
    link := "https://leetcode.com/problems/add-two-numbers/"
    difficulty := "Medium"
    date := some "2024-01-02" }

/-- A concrete state: user `"U1"` was issued `recTwoSum` at time 0. -/
def sampleState : ServerState :=
  { user_last_request := [("U1", 0)]
    user_points := []
    user_current_problem := [("U1", recTwoSum)] }

/-- Claim C1: for every user with a stored current problem whose last
request is within the 86400-second cooldown, `dsa_daily_problem` returns
the stored record formatted as a reply, does not run the fetch path
(`didFetch = false`, and the result does not depend on what a fetch would
have returned), and leaves the whole state — `user_last_request`,
`user_current_problem`, `user_points` — unchanged. -/
theorem cacheHit_returns_stored_record_no_fetch (u : String)
    (now lt : Int) (p : ProblemRecord) (σ : ServerState)
    (f : Option ProblemRecord)
    (hlast : dictGet σ.user_last_request u = some lt)
    (hcool : now - lt < 86400)
    (hcurr : dictGet σ.user_current_problem u = some p) :
    dsa_daily_problem u now f σ =
      { reply := "Your DSA problem: " ++ p.title ++ " (" ++ p.difficulty
          ++ ")\n" ++ p.link
        state := σ
        didFetch := false } := by
  simp only [dsa_daily_problem, dictGetD, hlast, Option.getD_some]
  rw [if_pos hcool, hcurr]

/-- Witness for C1 at a concrete state: a second request one hour after
issuance replays the cached record with no fetch and no state change. -/
theorem cacheHit_returns_stored_record_no_fetch_witness :
    dictGet sampleState.user_last_request "U1" = some 0 ∧
      (3600 : Int) - 0 < 86400 ∧
      dictGet sampleState.user_current_problem "U1" = some recTwoSum ∧
      dsa_daily_problem "U1" 3600 none sampleState =
        { reply :=
            "Your DSA problem: Two Sum (Easy)\nhttps://leetcode.com/problems/two-sum/"
          state := sampleState
          didFetch := false } :=
  ⟨by decide, by decide, by decide,
    cacheHit_returns_stored_record_no_fetch "U1" 3600 0 recTwoSum
      sampleState none (by decide) (by decide) (by decide)⟩

/-- Claim C2: when the cooldown has elapsed (or no record is stored) and
the fetch returns a record, `dsa_daily_problem` runs the fetch path once
(`didFetch = true`), replaces `user_current_problem[u]` wholesale with the
new record, sets `user_last_request[u] = now`, leaves `user_points`
untouched, and returns the reply built from the record's title,
difficulty and link. -/
theorem cacheMiss_fetch_success_stores_and_replies (u : String)
    (now : Int) (p : ProblemRecord) (σ : ServerState)
    (hmiss : 86400 ≤ now - dictGetD σ.user_last_request u 0 ∨
      dictGet σ.user_current_problem u = none) :
    dsa_daily_problem u now (some p) σ =
        { reply := "Here’s your DSA problem: " ++ p.title ++ " ("
            ++ p.difficulty ++ ")\n" ++ p.link
          state :=
            { σ with
              user_current_problem := dictInsert σ.user_current_problem u p
              user_last_request := dictInsert σ.user_last_request u now }
          didFetch := true } ∧
      (dsa_daily_problem u now (some p) σ).didFetch = true ∧
      dictGet (dsa_daily_problem u now (some p) σ).state.user_current_problem
          u = some p ∧
      dictGet (dsa_daily_problem u now (some p) σ).state.user_last_request
          u = some now ∧
      (dsa_daily_problem u now (some p) σ).state.user_points
          = σ.user_points := by
  have hm : ¬ (now - dictGetD σ.user_last_request u 0 < 86400 ∧
      dictContains σ.user_current_problem u = true) := by
    rcases hmiss with h | h
    · rintro ⟨h1, _⟩
      omega
    · rintro ⟨_, h2⟩
      simp [dictContains, h] at h2
  have he := dsa_fetch_some_eq u now p σ hm
  refine ⟨he, ?_, ?_, ?_, ?_⟩ <;> rw [he]
  · exact dictGet_insert_self _ _ _
  · exact dictGet_insert_self _ _ _

/-- Witness for C2: the cooldown has elapsed at `now = 90000`, the fetch
yields a new record, and the stored record and timestamp are replaced. -/
theorem cacheMiss_fetch_success_stores_and_replies_witness :
    ((86400 : Int) ≤ 90000 - dictGetD sampleState.user_last_request "U1" 0 ∨
        dictGet sampleState.user_current_problem "U1" = none) ∧
      dictGet (dsa_daily_problem "U1" 90000 (some recAddTwo)
          sampleState).state.user_current_problem "U1" = some recAddTwo ∧
      dictGet (dsa_daily_problem "U1" 90000 (some recAddTwo)
          sampleState).state.user_last_request "U1" = some 90000 :=
  ⟨Or.inl (by decide),
    (cacheMiss_fetch_success_stores_and_replies "U1" 90000 recAddTwo
      sampleState (Or.inl (by decide))).2.2.1,
    (cacheMiss_fetch_success_stores_and_replies "U1" 90000 recAddTwo
      sampleState (Or.inl (by decide))).2.2.2.1⟩

/-- Claim C3: when `dsa_daily_problem` takes the fetch path and the fetch
comes back empty, the reply is the fixed plain-text failure message and
the state — all three mappings — is exactly the state before the call. -/
theorem cacheMiss_fetch_empty_leaves_state_unchanged (u : String)
    (now : Int) (σ : ServerState)
    (hm : ¬ (now - dictGetD σ.user_last_request u 0 < 86400 ∧
      dictContains σ.user_current_problem u = true)) :
    dsa_daily_problem u now none σ =
        { reply := "Couldn\x27t fetch today\x27s problem."
          state := σ
          didFetch := true } ∧
      (dsa_daily_problem u now none σ).state.user_last_request
          = σ.user_last_request ∧
      (dsa_daily_problem u now none σ).state.user_current_problem
          = σ.user_current_problem ∧
      (dsa_daily_problem u now none σ).state.user_points
          = σ.user_points := by
  have he := dsa_fetch_none_eq u now σ hm
  exact ⟨he, by rw [he], by rw [he], by rw [he]⟩

/-- Witness for C3: an expired cooldown with an empty fetch replies with
the failure text and changes nothing. -/
theorem cacheMiss_fetch_empty_leaves_state_unchanged_witness :
    (¬ ((90000 : Int) - dictGetD sampleState.user_last_request "U1" 0
          < 86400 ∧
        dictContains sampleState.user_current_problem "U1" = true)) ∧
      dsa_daily_problem "U1" 90000 none sampleState =
        { reply := "Couldn\x27t fetch today\x27s problem."
          state := sampleState
          didFetch := true } :=
  ⟨by decide,
    (cacheMiss_fetch_empty_leaves_state_unchanged "U1" 90000 sampleState
      (by decide)).1⟩

/-- Claim C4: from the empty initial state, after any sequence of
tool calls and sweep passes, every user's point balance (stored or the
absent-key default) is a non-negative integer. -/
theorem points_nonneg_after_any_op_sequence :
    ∀ (ops : List Op) (u : String),
      0 ≤ dictGetD (runOps ops).user_points u 0 := by
  have haux : ∀ (ops : List Op) (σ : ServerState), pointsNonneg σ →
      pointsNonneg (ops.foldl (fun σ op => applyOp op σ) σ) := by
    intro ops
    induction ops with
    | nil => exact fun σ h => h
    | cons op rest ih =>
        exact fun σ h => ih _ (pointsNonneg_applyOp op σ h)
  intro ops u
  exact haux ops initState
    (fun v => by simp [initState, dictGetD, dictGet]) u

/-- Claim C5: `check_dsa_solution` adds exactly 10 points and confirms
with the new balance precisely when the user has a current problem and
the solution is not empty/whitespace-only; with no current problem it
returns the no-active-problem message unchanged, and with a blank
solution it returns the valid-solution prompt unchanged. -/
theorem submit_adds_ten_iff_valid (u sol : String) (σ : ServerState) :
    ((dictGet σ.user_current_problem u).isSome = true →
        stripIsEmpty sol = false →
        check_dsa_solution u sol σ =
            ("Solution saved! 🎉 You now have "
                ++ toString (dictGetD σ.user_points u 0 + 10) ++ " points.",
              { σ with user_points :=
                  (dictInsert σ.user_points u
                    (dictGetD σ.user_points u 0 + 10)) }) ∧
          dictGetD (check_dsa_solution u sol σ).2.user_points u 0
            = dictGetD σ.user_points u 0 + 10) ∧
      ((dictGet σ.user_current_problem u).isSome = false →
        check_dsa_solution u sol σ =
          ("You have no active daily problem.", σ)) ∧
      ((dictGet σ.user_current_problem u).isSome = true →
        stripIsEmpty sol = true →
        check_dsa_solution u sol σ =
          ("Please provide a valid solution.", σ)) := by
  refine ⟨fun hc hs => ?_, fun hc => ?_, fun hc hs => ?_⟩
  · have he : check_dsa_solution u sol σ =
        ("Solution saved! 🎉 You now have "
            ++ toString (dictGetD σ.user_points u 0 + 10) ++ " points.",
          { σ with user_points :=
              (dictInsert σ.user_points u
                (dictGetD σ.user_points u 0 + 10)) }) := by
      simp [check_dsa_solution, dictContains, hc, hs]
    refine ⟨he, ?_⟩
    rw [he]
    simp [dictGetD, dictGet_insert_self]
  · simp [check_dsa_solution, dictContains, hc]
  · simp [check_dsa_solution, dictContains, hc, hs]

/-- Witness for C5: a non-blank submission against a present problem
takes the balance from 0 to 10. -/
theorem submit_adds_ten_iff_valid_witness :
    (dictGet sampleState.user_current_problem "U1").isSome = true ∧
      stripIsEmpty "x = 1" = false ∧
      dictGetD (check_dsa_solution "U1" "x = 1" sampleState).2.user_points
        "U1" 0 = 10 :=
  ⟨by decide, by decide, by
    have h := ((submit_adds_ten_iff_valid "U1" "x = 1" sampleState).1
      (by decide) (by decide)).2
    exact h.trans (by decide)⟩

/-- Claim C6: `claim_rewards` with balance below 50 returns the deficit
message naming the needed 50 and the current balance and mutates
nothing; with balance at least 50 it deducts exactly 50 and returns the
success message. -/
theorem claim_deducts_fifty_or_reports_deficit (u : String)
    (σ : ServerState) :
    (dictGetD σ.user_points u 0 < 50 →
        claim_rewards u σ =
          ("Need 50 points to claim. You have "
              ++ toString (dictGetD σ.user_points u 0) ++ ".", σ)) ∧
      (50 ≤ dictGetD σ.user_points u 0 →
        claim_rewards u σ =
            ("🎁 Reward claimed!",
              { σ with user_points := (dictInsert σ.user_points u
                  (dictGetD σ.user_points u 0 - 50)) }) ∧
          dictGetD (claim_rewards u σ).2.user_points u 0
            = dictGetD σ.user_points u 0 - 50) := by
  refine ⟨fun h => ?_, fun h => ?_⟩
  · simp [claim_rewards, h]
  · have hn : ¬ (dictGetD σ.user_points u 0 < 50) := by omega
    have he : claim_rewards u σ =
        ("🎁 Reward claimed!",
          { σ with user_points := (dictInsert σ.user_points u
              (dictGetD σ.user_points u 0 - 50)) }) := by
      simp [claim_rewards, hn]
    refine ⟨he, ?_⟩
    rw [he]
    simp [dictGetD, dictGet_insert_self]

/-- A concrete state with a 45-point balance. -/
def stateWith45 : ServerState :=
  { user_last_request := []
    user_points := [("U2", 45)]
    user_current_problem := [] }

/-- A concrete state with a 55-point balance. -/
def stateWith55 : ServerState :=
  { user_last_request := []
    user_points := [("U2", 55)]
    user_current_problem := [] }

/-- Witness for C6: at balance 45 the claim fails citing 50 and 45 and
leaves the state alone; at balance 55 it deducts to 5. -/
theorem claim_deducts_fifty_or_reports_deficit_witness :
    (dictGetD stateWith45.user_points "U2" 0 < 50 ∧
        claim_rewards "U2" stateWith45 =
          ("Need 50 points to claim. You have 45.", stateWith45)) ∧
      (50 ≤ dictGetD stateWith55.user_points "U2" 0 ∧
        dictGetD (claim_rewards "U2" stateWith55).2.user_points "U2" 0
          = 5) :=
  ⟨⟨by decide,
      ((claim_deducts_fifty_or_reports_deficit "U2" stateWith45).1
        (by decide)).trans (by decide)⟩,
    ⟨by decide,
      (((claim_deducts_fifty_or_reports_deficit "U2" stateWith55).2
        (by decide)).2).trans (by decide)⟩⟩

/-- `n` consecutive `check_dsa_solution` calls with the same solution
text, threading the state. -/
def submitN (u sol : String) : Nat → ServerState → ServerState
  | 0, σ => σ
  | n + 1, σ => submitN u sol n (check_dsa_solution u sol σ).2

/-- Claim C10: with a current problem present and a non-blank solution,
`n` consecutive submissions each succeed and add 10 points — the balance
grows by exactly `10 * n` — and no submission removes or marks the
current problem (both `user_current_problem` and `user_last_request` are
untouched), so the same problem can be resubmitted without bound within
one cooldown window. -/
theorem repeated_submit_adds_ten_each_time (u sol : String) (n : Nat)
    (σ : ServerState)
    (hc : (dictGet σ.user_current_problem u).isSome = true)
    (hs : stripIsEmpty sol = false) :
    (submitN u sol n σ).user_current_problem = σ.user_current_problem ∧
      (submitN u sol n σ).user_last_request = σ.user_last_request ∧
      dictGetD (submitN u sol n σ).user_points u 0
        = dictGetD σ.user_points u 0 + 10 * (n : Int) := by
  induction n generalizing σ with
  | zero => simp [submitN]
  | succ n ih =>
      have hstep : (check_dsa_solution u sol σ).2 =
          { σ with user_points :=
              (dictInsert σ.user_points u
                (dictGetD σ.user_points u 0 + 10)) } := by
        simp [check_dsa_solution, dictContains, hc, hs]
      have hc' : (dictGet
          ((check_dsa_solution u sol σ).2).user_current_problem u).isSome
            = true := by
        rw [hstep]
        exact hc
      obtain ⟨h1, h2, h3⟩ := ih ((check_dsa_solution u sol σ).2) hc'
      refine ⟨?_, ?_, ?_⟩
      · show (submitN u sol n (check_dsa_solution u sol σ).2).user_current_problem
          = σ.user_current_problem
        rw [h1, hstep]
      · show (submitN u sol n (check_dsa_solution u sol σ).2).user_last_request
          = σ.user_last_request
        rw [h2, hstep]
      · show dictGetD
            (submitN u sol n (check_dsa_solution u sol σ).2).user_points u 0
          = dictGetD σ.user_points u 0 + 10 * ((n + 1 : Nat) : Int)
        rw [h3, hstep]
        simp [dictGetD, dictGet_insert_self]
        ring

/-- Witness for C10: three consecutive submissions take the balance from
0 to 30 and leave the stored problem in place. -/
theorem repeated_submit_adds_ten_each_time_witness :
    (dictGet sampleState.user_current_problem "U1").isSome = true ∧
      stripIsEmpty "return a + b" = false ∧
      dictGetD (submitN "U1" "return a + b" 3 sampleState).user_points
          "U1" 0 = 30 ∧
      (submitN "U1" "return a + b" 3 sampleState).user_current_problem
        = sampleState.user_current_problem :=
  ⟨by decide, by decide,
    by
      have h := (repeated_submit_adds_ten_each_time "U1" "return a + b" 3
        sampleState (by decide) (by decide)).2.2
      exact h.trans (by decide),
    (repeated_submit_adds_ten_each_time "U1" "return a + b" 3 sampleState
      (by decide) (by decide)).1⟩

/-- Claim C7: for a user with a recorded `lastRequestAt` whose cooldown
has elapsed, one sweep pass applies to that user exactly the cache-miss
`dsa_daily_problem` transition: a successful fetch replaces the stored
problem and sets the timestamp to `now`, an empty fetch leaves the
user's state unchanged, points are untouched, and the resulting lookups
agree with the state a cache-miss `dsa_daily_problem` call at `now`
would produce. -/
theorem sweep_matches_cache_miss_get_daily (σ : ServerState) (u : String)
    (lt now : Int) (fetch : String → Option ProblemRecord)
    (hnd : (σ.user_last_request.map Prod.fst).Nodup)
    (hmem : (u, lt) ∈ σ.user_last_request)
    (hcool : 86400 ≤ now - lt) :
    (∀ p, fetch u = some p →
        dictGet (auto_push_daily_problems now fetch
            σ).user_current_problem u = some p ∧
          dictGet (auto_push_daily_problems now fetch
            σ).user_last_request u = some now) ∧
      (fetch u = none →
        dictGet (auto_push_daily_problems now fetch
            σ).user_current_problem u
            = dictGet σ.user_current_problem u ∧
          dictGet (auto_push_daily_problems now fetch
            σ).user_last_request u
            = dictGet σ.user_last_request u) ∧
      (auto_push_daily_problems now fetch σ).user_points
          = σ.user_points ∧
      dictGet (auto_push_daily_problems now fetch
          σ).user_current_problem u
        = dictGet (dsa_daily_problem u now (fetch u)
            σ).state.user_current_problem u ∧
      dictGet (auto_push_daily_problems now fetch σ).user_last_request u
        = dictGet (dsa_daily_problem u now (fetch u)
            σ).state.user_last_request u := by
  have hmain := sweep_foldl_lookup_main now fetch u lt hcool
    σ.user_last_request σ hmem hnd
  have hpts := sweep_foldl_user_points_eq now fetch σ.user_last_request σ
  have hlast : dictGet σ.user_last_request u = some lt :=
    dictGet_of_mem_nodup _ u lt hnd hmem
  have hgetd : dictGetD σ.user_last_request u 0 = lt := by
    simp [dictGetD, hlast]
  have hm : ¬ (now - dictGetD σ.user_last_request u 0 < 86400 ∧
      dictContains σ.user_current_problem u = true) := by
    rintro ⟨h1, _⟩
    rw [hgetd] at h1
    omega
  have hcmp : dictGet (auto_push_daily_problems now fetch
        σ).user_current_problem u
        = dictGet (dsa_daily_problem u now (fetch u)
            σ).state.user_current_problem u ∧
      dictGet (auto_push_daily_problems now fetch σ).user_last_request u
        = dictGet (dsa_daily_problem u now (fetch u)
            σ).state.user_last_request u := by
    cases hf : fetch u with
    | some p =>
        have hdsa := dsa_fetch_some_eq u now p σ hm
        have h1 := hmain.1 p hf
        rw [hdsa]
        exact ⟨h1.1.trans (dictGet_insert_self _ _ _).symm,
          h1.2.trans (dictGet_insert_self _ _ _).symm⟩
    | none =>
        have hdsa := dsa_fetch_none_eq u now σ hm
        have h2 := hmain.2 hf
        rw [hdsa]
        exact ⟨h2.1, h2.2⟩
  exact ⟨fun p hp => hmain.1 p hp, hmain.2, hpts, hcmp.1, hcmp.2⟩

/-- Witness for C7: user `"U1"` last served at time 0, swept at time
90000 with a fetch that returns `recAddTwo`: the stored problem and the
timestamp are replaced. -/
theorem sweep_matches_cache_miss_get_daily_witness :
    ((sampleState.user_last_request.map Prod.fst).Nodup ∧
        ("U1", (0 : Int)) ∈ sampleState.user_last_request ∧
        (86400 : Int) ≤ 90000 - 0) ∧
      dictGet (auto_push_daily_problems 90000 (fun _ => some recAddTwo)
          sampleState).user_current_problem "U1" = some recAddTwo ∧
      dictGet (auto_push_daily_problems 90000 (fun _ => some recAddTwo)
          sampleState).user_last_request "U1" = some 90000 :=
  ⟨⟨by decide, by decide, by decide⟩,
    ((sweep_matches_cache_miss_get_daily sampleState "U1" 0 90000
        (fun _ => some recAddTwo) (by decide) (by decide) (by decide)).1
      recAddTwo rfl).1,
    ((sweep_matches_cache_miss_get_daily sampleState "U1" 0 90000
        (fun _ => some recAddTwo) (by decide) (by decide) (by decide)).1
      recAddTwo rfl).2⟩

/-- Counterexample to claim C8 as stated: the fetcher does not turn
every failure into an empty result — there is no `try`/`except` in
`get_leetcode_daily_problem`, so on the network-error outcome the
transport exception propagates, and even a body that decodes as JSON
raises `KeyError` when its truthy `question` object carries `title` but
no `titleSlug` (the `q['titleSlug']` lookup in the link f-string).
Hence it is not the case that every upstream outcome yields a returned
result. -/
theorem fetcher_raises_on_network_error :
    get_leetcode_daily_problem UpstreamOutcome.networkError
        = Except.error PyError.httpxError ∧
      get_leetcode_daily_problem (UpstreamOutcome.parsed
          (some ⟨none, some ⟨some "T", none, none⟩⟩))
        = Except.error PyError.keyError ∧
      ¬ ∀ o : UpstreamOutcome, ∃ r : Option ProblemRecord,
          get_leetcode_daily_problem o = Except.ok r := by
  refine ⟨rfl, rfl, fun h => ?_⟩
  rcases h UpstreamOutcome.networkError with ⟨r, hr⟩
  simp [get_leetcode_daily_problem] at hr

/-- Claim C8 as amended: the fetcher returns the empty result, without
raising, exactly when the decoded payload's data/question chain is
absent or falsy, and returns the assembled record when a truthy
question carries all three required keys; every other outcome raises to
the caller — `httpx` transport errors, JSON decode errors,
`AttributeError`/`TypeError` from a non-dict receiver in the access
chain, and `KeyError` when a truthy question object lacks `title`,
`titleSlug` or `difficulty`. -/
theorem fetcher_empty_only_on_falsy_question_chain :
    get_leetcode_daily_problem (UpstreamOutcome.parsed none)
        = Except.ok none ∧
      (∀ dt : Option String,
        get_leetcode_daily_problem
            (UpstreamOutcome.parsed (some ⟨dt, none⟩))
          = Except.ok none) ∧
      (∀ (dt : Option String) (t slug diff : String),
        get_leetcode_daily_problem (UpstreamOutcome.parsed
            (some ⟨dt, some ⟨some t, some slug, some diff⟩⟩))
          = Except.ok (some
              { title := t
                link := "https://leetcode.com/problems/" ++ slug ++ "/"
                difficulty := diff
                date := dt })) ∧
      get_leetcode_daily_problem UpstreamOutcome.networkError
          = Except.error PyError.httpxError ∧
      get_leetcode_daily_problem UpstreamOutcome.malformedBody
          = Except.error PyError.jsonDecodeError ∧
      get_leetcode_daily_problem UpstreamOutcome.parsedNonDict
          = Except.error PyError.attributeError ∧
      (∀ (dt : Option String) (os od : Option String),
        get_leetcode_daily_problem (UpstreamOutcome.parsed
            (some ⟨dt, some ⟨none, os, od⟩⟩))
          = Except.error PyError.keyError) ∧
      (∀ (dt : Option String) (t : String) (od : Option String),
        get_leetcode_daily_problem (UpstreamOutcome.parsed
            (some ⟨dt, some ⟨some t, none, od⟩⟩))
          = Except.error PyError.keyError) ∧
      (∀ (dt : Option String) (t slug : String),
        get_leetcode_daily_problem (UpstreamOutcome.parsed
            (some ⟨dt, some ⟨some t, some slug, none⟩⟩))
          = Except.error PyError.keyError) :=
  ⟨rfl, fun _ => rfl, fun _ _ _ _ => rfl, rfl, rfl, rfl,
    fun _ _ _ => rfl, fun _ _ _ => rfl, fun _ _ _ => rfl⟩

/-- Claim C9: per-platform results are capped at 5 (the code requests
`first = 5` / `maxResults = 5`; the hypotheses state that the APIs
honour the cap they were asked for), with no platform filter the Twitch
entries precede all YouTube entries, every entry is rendered as
`"[Platform] name: title (url)"`, an empty combined result list yields
the fixed no-streams message, and an unresolved Twitch game name yields
an empty Twitch list. -/
theorem stream_finder_caps_orders_renders (env : StreamEnv)
    (game : String) (platform : Option String)
    (h5t : ∀ gid : String, (env.twitchStreams gid 5).length ≤ 5)
    (h5y : (env.youtubeSearch game 5).length ≤ 5) :
    (get_twitch_live_streams env game).length ≤ 5 ∧
      (get_youtube_live_streams env game).length ≤ 5 ∧
      (platformFalsy platform = true →
        stream_finder_results env game platform =
          (get_twitch_live_streams env game).map (renderStream "Twitch")
            ++ (get_youtube_live_streams env game).map
              (renderStream "YouTube")) ∧
      (∀ e ∈ stream_finder_results env game platform,
        (∃ s, e = renderStream "Twitch" s) ∨
          (∃ s, e = renderStream "YouTube" s)) ∧
      (stream_finder_results env game platform = [] →
        stream_finder env game platform
          = "No live streams found right now.") ∧
      (env.twitchGameSearch game = [] →
        get_twitch_live_streams env game = []) := by
  refine ⟨?_, ?_, ?_, ?_, ?_, ?_⟩
  · unfold get_twitch_live_streams
    cases hg : env.twitchGameSearch game with
    | nil => simp
    | cons g rest => simpa using h5t g.id
  · simpa [get_youtube_live_streams] using h5y
  · intro hp
    simp [stream_finder_results, hp]
  · intro e he
    unfold stream_finder_results at he
    split_ifs at he
    all_goals
      simp only [List.nil_append, List.mem_append, List.mem_map] at he
    · rcases he with ⟨s, _, rfl⟩ | ⟨s, _, rfl⟩
      · exact Or.inl ⟨s, rfl⟩
      · exact Or.inr ⟨s, rfl⟩
    · rcases he with ⟨s, _, rfl⟩
      exact Or.inl ⟨s, rfl⟩
    · rcases he with ⟨s, _, rfl⟩
      exact Or.inr ⟨s, rfl⟩
    · cases he
  · intro hempty
    simp [stream_finder, hempty]
  · intro hg
    simp [get_twitch_live_streams, hg]

/-- A stream environment in which every upstream response is empty. -/
def emptyStreamEnv : StreamEnv :=
  { twitchGameSearch := fun _ => []
    twitchStreams := fun _ _ => []
    youtubeSearch := fun _ _ => [] }

/-- Witness for C9: with empty upstream responses the reply is the fixed
no-streams message. -/
theorem stream_finder_caps_orders_renders_witness :
    (∀ gid : String,
        (emptyStreamEnv.twitchStreams gid 5).length ≤ 5) ∧
      (emptyStreamEnv.youtubeSearch "Rocket League" 5).length ≤ 5 ∧
      stream_finder emptyStreamEnv "Rocket League" none
        = "No live streams found right now." :=
  ⟨fun _ => by simp [emptyStreamEnv], by simp [emptyStreamEnv],
    (stream_finder_caps_orders_renders emptyStreamEnv "Rocket League"
        none (fun _ => by simp [emptyStreamEnv])
        (by simp [emptyStreamEnv])).2.2.2.2.1 rfl⟩
